import Mathlib

/-!
Shallow embedding of the Spotify ingestion pipeline
(`src/integrations/spotify/auth.py` and `src/integrations/spotify/ingest.py`)
and proofs about its claimed properties.

Modelling conventions:
* Python `set` objects are modelled as duplicate-free `List`s.  CPython set
  iteration order is unspecified; we determinize it to first-insertion order.
  `pySet` models `set(iterable)` and `pySetUnion` models `s.update(t)`.
* Machine time, sleeping and logging are irrelevant to the claims and are not
  modelled; timestamps that matter (token expiry) are explicit `Int` seconds.
* HTTP traffic is an oracle: a function from the request index (or payload)
  to the response the external service returns.
* A parsed JSON body is either `falsy` (a value whose Python truthiness is
  `False`: `None`, `{}`, `[]`, ...) or a truthy object of the expected shape.
-/

namespace SpotifyIngest

/-- Python `set(l)` on a list, determinized to first-insertion order:
a duplicate-free list with the same membership. -/
def pySet {α : Type} [DecidableEq α] (l : List α) : List α := l.dedup

/-- Python `s.update(t)` / set union on duplicate-free lists, keeping the
elements of `s` first and inserting the unseen elements of `t` in order. -/
def pySetUnion {α : Type} [DecidableEq α] (s t : List α) : List α :=
  s ++ (t.filter (fun a => a ∉ s)).dedup

/-- Recursion core of `chunks`, structurally recursive on a fuel bound on
the number of loop iterations (with step `n ≥ 1`, the input length is always
enough fuel). -/
def chunksFuel {α : Type} (n : Nat) : Nat → List α → List (List α)
  | _, [] => []
  | 0, _ :: _ => []
  | fuel + 1, a :: l => ((a :: l).take n) :: chunksFuel n fuel ((a :: l).drop n)

/-- The batch slicing `for i in range(0, len(l), n): batch = l[i:i+n]` from
`main`.  A zero step raises in Python and never occurs (`BATCH_SIZE = 50`). -/
def chunks {α : Type} (n : Nat) (l : List α) : List (List α) :=
  chunksFuel n l.length l

/-! ## Token Manager (`src/integrations/spotify/auth.py`) -/

/-- The persisted credential record `{access_token, expires}` written by
`save_token` and read by `load_token`. -/
structure Credential where
  accessToken : String
  expires : Int
deriving DecidableEq, Repr

/-- `load_token()`: reads the token file, returning `(access_token, expires)`
or `(None, None)` when the file is absent.  The durable store is the
`Option Credential` argument. -/
def load_token (store : Option Credential) : Option String × Option Int :=
  match store with
  | some c => (some c.accessToken, some c.expires)
  | none => (none, none)

/-- `save_token(token, expires)`: overwrites the single-record durable store. -/
def save_token (token : String) (expires : Int) : Option Credential :=
  some ⟨token, expires⟩

/-- `package_access_token(token)`: the authorization header built from a
token.  The Python dict with a single `Authorization` key is modelled by the
header string itself. -/
def package_access_token (token : String) : String :=
  "Bearer " ++ token

/-- Outcome of `request_access_token`: the returned header, the durable
store after the call, and whether a network exchange was performed. -/
structure AuthResult where
  header : String
  store : Option Credential
  networkCall : Bool
deriving DecidableEq, Repr

/-- `request_access_token()`.  `now` is the current time in seconds;
`exchange` is the outcome the auth endpoint would give to a client-credentials
exchange: `.ok (access_token, expires_in)` or a failure (which the Python code
re-raises after logging).  The guard mirrors
`if access_token and expires and datetime.now() < (expires - timedelta(seconds=300))`;
note that Python truthiness makes an empty-string token fail the guard. -/
def request_access_token (store : Option Credential) (now : Int)
    (exchange : Except Unit (String × Int)) : Except Unit AuthResult :=
  match load_token store with
  | (some tok, some exp) =>
    if tok ≠ "" ∧ now < exp - 300 then
      .ok ⟨package_access_token tok, store, false⟩
    else
      match exchange with
      | .ok (newTok, lifetime) =>
        .ok ⟨package_access_token newTok, save_token newTok (now + lifetime), true⟩
      | .error e => .error e
  | _ =>
    match exchange with
    | .ok (newTok, lifetime) =>
      .ok ⟨package_access_token newTok, save_token newTok (now + lifetime), true⟩
    | .error e => .error e

/-! ## Rate-Limited Endpoint Caller (`call_spotify_endpoint`) -/

/-- An HTTP response as classified by `call_spotify_endpoint`: a status code,
the optional `Retry-After` header (only consulted on 429, where it governs a
sleep we do not model), and the parsed body handed back on 200. -/
structure HttpResponse (β : Type) where
  status : Nat
  retryAfter : Option Nat
  body : β
deriving DecidableEq, Repr

/-- Observable outcome of `call_spotify_endpoint`: the returned value, the
final global `ACCESS_HEADER`, the final token-manager state, the HTTP
requests actually issued (request index paired with the header it carried),
and how many times the token manager was invoked (the 401 branch). -/
structure CallResult (β σ : Type) where
  result : Option β
  hdr : String
  auth : σ
  requests : List (Nat × String)
  refreshes : Nat
deriving DecidableEq, Repr

/-- `call_spotify_endpoint(endpoint, spotify_id, calls, url)`.
`oracle i` is the response the service returns to the `i`-th HTTP GET of the
overall session; `refresh` is the token manager (`request_access_token`,
which updates the global `ACCESS_HEADER`), threaded through state `σ`.
Pacing sleeps and the `Retry-After` sleep only affect timing and are not
modelled.  The branches mirror the source: 200 returns the body, 429 and 401
recurse with `calls + 1` (401 refreshing first), 403/404/other log and
return `None`, and `calls > 3` aborts before issuing a request. -/
def call_spotify_endpoint {β σ : Type} (oracle : Nat → HttpResponse β)
    (refresh : σ → String × σ) (hdr : String) (auth : σ)
    (reqIdx : Nat) (calls : Nat) : CallResult β σ :=
  if h : calls > 3 then
    ⟨none, hdr, auth, [], 0⟩
  else
    let resp := oracle reqIdx
    if resp.status = 200 then
      ⟨some resp.body, hdr, auth, [(reqIdx, hdr)], 0⟩
    else if resp.status = 429 then
      let rest := call_spotify_endpoint oracle refresh hdr auth (reqIdx + 1) (calls + 1)
      ⟨rest.result, rest.hdr, rest.auth, (reqIdx, hdr) :: rest.requests, rest.refreshes⟩
    else if resp.status = 401 then
      let fr := refresh auth
      let rest := call_spotify_endpoint oracle refresh fr.1 fr.2 (reqIdx + 1) (calls + 1)
      ⟨rest.result, rest.hdr, rest.auth, (reqIdx, hdr) :: rest.requests, rest.refreshes + 1⟩
    else
      ⟨none, hdr, auth, [(reqIdx, hdr)], 0⟩
termination_by 4 - calls
decreasing_by all_goals omega

/-! ## Endpoint field tables (`src/integrations/spotify/endpoint_fields.py`) -/

/-- `TRACK_DATA_FIELDS`: source field name paired with output column name,
in dict insertion order. -/
def TRACK_DATA_FIELDS : List (String × String) :=
  [("id", "track_id"), ("duration_ms", "duration_ms"),
   ("name", "track_name"), ("popularity", "track_popularity")]

/-- `AUDIO_FEATURES_FIELDS`, in dict insertion order. -/
def AUDIO_FEATURES_FIELDS : List (String × String) :=
  [("acousticness", "acousticness"), ("danceability", "danceability"),
   ("energy", "energy"), ("instrumentalness", "instrumentalness"),
   ("key", "key"), ("liveness", "liveness"), ("loudness", "loudness"),
   ("mode", "mode"), ("speechiness", "speechiness"), ("tempo", "tempo"),
   ("time_signature", "time_signature"), ("valence", "valence")]

/-- `ARTIST_FIELDS`, in dict insertion order. -/
def ARTIST_FIELDS : List (String × String) :=
  [("genres", "artist_genres"), ("id", "artist_id"),
   ("name", "artist_name"), ("popularity", "artist_popularity")]

/-! ## JSON objects and response bodies -/

/-- A flat JSON object whose leaves the code reads via `.get(field)`:
modelled as an association list of string leaves (field values are opaque to
the pipeline, so a single leaf type suffices).  `.get` is `lookup`:
`None` when the key is absent. -/
abbrev Obj := List (String × String)

/-- A track object from the `tracks` response: the flat fields read via
`track.get(field)`, and the `track['artists']` array, of which the code only
reads each element's `.get('id')` (which may be `None`). -/
structure TrackObj where
  attrs : Obj
  artists : List (Option String)
deriving DecidableEq, Repr

/-- An artist object from the `artists` response: flat fields plus the
`followers` sub-object, of which only the numeric `total` is read
(`artist.get('followers', \x7b\x7d).get('total', 0)`). -/
structure ArtistObj where
  attrs : Obj
  followers : Option (List (String × Nat))
deriving DecidableEq, Repr

/-- A parsed JSON body as seen through Python truthiness: either `falsy`
(`None`, `\x7b\x7d`, `[]`, ... — every caller checks `if not body` before
touching it) or a truthy object carrying the payload of the expected
shape. -/
inductive ApiBody (α : Type) where
  | falsy
  | obj (payload : α)
deriving DecidableEq, Repr

/-- Body of the batch track-metadata response: the `tracks` list. -/
abbrev TracksBody := ApiBody (List TrackObj)

/-- Body of the batch audio-features response: the `audio_features` list. -/
abbrev AudioBody := ApiBody (List Obj)

/-- Body of the batch artist-metadata response: the `artists` list. -/
abbrev ArtistsBody := ApiBody (List ArtistObj)

/-- Body of one playlist page: the track ids of the `items` array (read only
via `item['track']['id']`) and the `next` page link (`None` when the listing
is exhausted). -/
abbrev PageBody := ApiBody (List String × Option String)

/-! ## Parsing (`parse_track_responses`, `parse_artist_responses`) -/

/-- The dict comprehension `\x7bFIELDS[field]: o.get(field) for field in FIELDS\x7d`:
projects and renames the listed fields, keeping insertion order. -/
def projectFields (fields : List (String × String)) (o : Obj) :
    List (String × Option String) :=
  fields.map (fun p => (p.2, o.lookup p.1))

/-- One merged track record: the dict built from the projected track fields,
updated with the projected audio-feature fields, with the artist-id list
added under the `artist_ids` key (kept as a separate component since its
value is a list, not a leaf). -/
structure TrackRecord where
  fields : List (String × Option String)
  artistIds : List (Option String)
deriving DecidableEq, Repr

/-- Builds the merged record for one `(track, features)` pair of the zip in
`parse_track_responses`. -/
def mkTrackRecord (track : TrackObj) (features : Obj) : TrackRecord :=
  { fields := projectFields TRACK_DATA_FIELDS track.attrs ++
      projectFields AUDIO_FEATURES_FIELDS features
    artistIds := track.artists }

/-- `track_features['track_id']` as read back by `main` for the ledger
write: the value stored under the `track_id` key. -/
def TrackRecord.trackIdVal (r : TrackRecord) : Option String :=
  (r.fields.lookup "track_id").join

/-- The string the csv writer puts in the track-id ledger for a record:
`writerow([value])` renders `None` as the empty field. -/
def TrackRecord.ledgerRow (r : TrackRecord) : String :=
  r.trackIdVal.getD ""

/-- `parse_track_responses(track_data, audio_features)`: folds over
`zip(track_data['tracks'], audio_features['audio_features'])`, appending one
merged record per pair and accumulating the set of artist ids
(`batch_artist_ids.update(set(artist_ids))`). -/
def parse_track_responses (trackData : List TrackObj) (audioFeatures : List Obj) :
    List TrackRecord × List (Option String) :=
  (trackData.zip audioFeatures).foldl
    (fun acc p =>
      (acc.1 ++ [mkTrackRecord p.1 p.2], pySetUnion acc.2 (pySet p.1.artists)))
    ([], [])

/-- One artist record: projected fields plus the denormalized follower
count under `artist_followers`. -/
structure ArtistRecord where
  fields : List (String × Option String)
  artistFollowers : Nat
deriving DecidableEq, Repr

/-- `parse_artist_responses(artist_data)`: one record per element of
`artist_data['artists']`. -/
def parse_artist_responses (artistData : List ArtistObj) : List ArtistRecord :=
  artistData.map (fun a =>
    { fields := projectFields ARTIST_FIELDS a.attrs
      artistFollowers := ((a.followers.getD []).lookup "total").getD 0 })

/-! ## Batch Collector (`collect_track_data`, `collect_artist_data`) -/

/-- `collect_track_data(batch)`.  `tracksAPI`/`audioAPI` give the outcome of
`call_spotify_endpoint` for the comma-joined payload (`none` = the caller
returned `None`).  The Python function returns the pair `(None, None)` or
`(records, artist_id_set)`; we model the two all-or-nothing outcomes as an
`Option` of the pair.  The guard mirrors
`if not batch_track_data or not batch_audio_features`, which also treats a
200 response with a falsy body as missing data. -/
def collect_track_data (tracksAPI : String → Option TracksBody)
    (audioAPI : String → Option AudioBody) (batch : List String) :
    Option (List TrackRecord × List (Option String)) :=
  let track_ids := String.intercalate "," batch
  match tracksAPI track_ids, audioAPI track_ids with
  | some (.obj ts), some (.obj afs) => some (parse_track_responses ts afs)
  | _, _ => none

/-- `collect_artist_data(batch)`.  Artist ids flow in as the optional
strings collected from track records; `','.join` would fail on a `None` id,
which we render as the empty string. -/
def collect_artist_data (artistAPI : String → Option ArtistsBody)
    (batch : List (Option String)) : Option (List ArtistRecord) :=
  let artist_ids := String.intercalate "," (batch.map (fun a => a.getD ""))
  match artistAPI artist_ids with
  | some (.obj arts) => some (parse_artist_responses arts)
  | _ => none

/-! ## Pagination Walker (the `while next_url` loop of `get_track_ids`) -/

/-- The per-playlist pagination loop of `get_track_ids`: while a next url
exists, fetch the page; abandon with the accumulated ids on a failed call or
falsy body (`if not playlist_data: break`); otherwise extend the
accumulator with the page's track ids and follow `playlist_data['next']`.
`pageAPI` maps a page url to the endpoint caller's outcome; Python's loop
can chase `next` links forever, so the model bounds it by `fuel` pages. -/
def get_track_ids_loop (pageAPI : String → Option PageBody) :
    Nat → Option String → List String → List String
  | 0, _, acc => acc
  | _ + 1, none, acc => acc
  | fuel + 1, some url, acc =>
    match pageAPI url with
    | some (.obj page) => get_track_ids_loop pageAPI fuel page.2 (acc ++ page.1)
    | _ => acc

/-! ## Orchestrator (`main`) -/

def DATASET_SIZE_THRESHOLD : Nat := 50000

def BATCH_SIZE : Nat := 50

/-- One row of a csv output record file: the header row written by
`writeheader()`, or a data record written by `writerow`. -/
inductive CsvRow (α : Type) where
  | header
  | record (r : α)
deriving DecidableEq, Repr

/-- Whether a row is the header row. -/
def CsvRow.isHeader {α : Type} : CsvRow α → Bool
  | .header => true
  | .record _ => false

/-- Number of header rows in a record file. -/
def countHeaders {α : Type} (rows : List (CsvRow α)) : Nat :=
  rows.countP CsvRow.isHeader

/-- The four durable files `main` appends to: the two id ledgers (one id
string per row; `get_existing_ids` reads them back as a set) and the two
record files. -/
structure FileState where
  trackIdRows : List String
  artistIdRows : List String
  trackFeatRows : List (CsvRow TrackRecord)
  artistFeatRows : List (CsvRow ArtistRecord)
deriving DecidableEq, Repr

/-- The new-id filter of `main` (line 344):
`[track for track in track_ids if track not in known_track_ids]`. -/
def newIdFilter (ids : List String) (known : List String) : List String :=
  ids.filter (fun t => t ∉ known)

/-- In-memory state threaded through the track-batch loop of `main`:
the growing files plus the `known_artist_ids` and `new_artist_ids` sets.
`known_artist_ids` starts as strings read from the ledger file but is
updated with ids taken from API responses, which may be `None`; a `None` id
never equals a file row, so file rows enter as `some`. -/
structure IngestState where
  fs : FileState
  knownArtistIds : List (Option String)
  newArtistIds : List (Option String)
deriving DecidableEq, Repr

/-- One iteration of the track-batch loop of `main` (lines 368-381):
fetch the batch; on a truthy record list, append each record to the feature
file and its `track_id` field to the track-id ledger, then append the
batch's previously unknown artist ids to the artist-id ledger and to both
artist-id sets. -/
def processTrackBatch
    (collectTrack : List String → Option (List TrackRecord × List (Option String)))
    (s : IngestState) (batch : List String) : IngestState :=
  match collectTrack batch with
  | none => s
  | some (batchTrackFeatures, batchArtistIds) =>
    if batchTrackFeatures.isEmpty then s  -- `if batch_track_features:` falsy
    else
      let fs1 :=
        { s.fs with
          trackFeatRows :=
            s.fs.trackFeatRows ++ batchTrackFeatures.map CsvRow.record
          trackIdRows :=
            s.fs.trackIdRows ++ batchTrackFeatures.map TrackRecord.ledgerRow }
      let batchNewArtistIds :=
        batchArtistIds.filter (fun a => a ∉ s.knownArtistIds)
      if batchNewArtistIds.isEmpty then { s with fs := fs1 }
      else
        { fs :=
            { fs1 with
              artistIdRows :=
                fs1.artistIdRows ++ batchNewArtistIds.map (fun a => a.getD "") }
          knownArtistIds := pySetUnion s.knownArtistIds batchNewArtistIds
          newArtistIds := pySetUnion s.newArtistIds batchNewArtistIds }

/-- One iteration of the artist-batch loop of `main` (lines 394-399). -/
def processArtistBatch (collectArtist : List (Option String) → Option (List ArtistRecord))
    (fs : FileState) (batch : List (Option String)) : FileState :=
  match collectArtist batch with
  | none => fs
  | some batchArtistFeatures =>
    if batchArtistFeatures.isEmpty then fs  -- `if batch_artist_features:` falsy
    else
      { fs with
        artistFeatRows :=
          fs.artistFeatRows ++ batchArtistFeatures.map CsvRow.record }

/-- `main()` as a transformer of the durable file state.
`discover` is the value `get_track_ids()` returned; `collectTrack` and
`collectArtist` are the batch collectors (instantiate with
`collect_track_data`/`collect_artist_data` over concrete API oracles).
Token acquisition only populates the global header and is not part of the
file-state semantics.  Mirrors the source line by line: the early return on
a falsy track-id list, the ledger loads, the order-preserving new-id
filter, the pre-flight threshold abort, the track-feature header when the
track-id ledger held zero ids, the batch loop, the artist-feature header
when the artist-id ledger held zero ids, and the artist batch loop. -/
def mainRun (threshold batchSize : Nat) (discover : Option (List String))
    (collectTrack : List String → Option (List TrackRecord × List (Option String)))
    (collectArtist : List (Option String) → Option (List ArtistRecord))
    (fs : FileState) : FileState :=
  match discover with
  | none => fs
  | some track_ids =>
  if track_ids.isEmpty then fs  -- `if not track_ids:` (None or empty)
  else
    let known_artist_ids := (pySet fs.artistIdRows).map some
    let n_artists := known_artist_ids.length
    let known_track_ids := pySet fs.trackIdRows
    let n_tracks := known_track_ids.length
    let new_track_ids := newIdFilter track_ids known_track_ids
    let n_new_tracks := new_track_ids.length
    if threshold ≤ n_new_tracks + n_tracks then fs  -- pre-flight abort
    else
      let fs1 :=
        if n_tracks = 0 then
          { fs with trackFeatRows := fs.trackFeatRows ++ [CsvRow.header] }
        else fs
      let st :=
        (chunks batchSize new_track_ids).foldl (processTrackBatch collectTrack)
          { fs := fs1, knownArtistIds := known_artist_ids, newArtistIds := [] }
      let fs2 :=
        if n_artists = 0 then
          { st.fs with artistFeatRows := st.fs.artistFeatRows ++ [CsvRow.header] }
        else st.fs
      (chunks batchSize st.newArtistIds).foldl (processArtistBatch collectArtist) fs2

/-! ## Concrete instances used by witnesses and counterexamples -/

/-- Concrete API response for a one-track batch: track `t1` by artists
`a1`, `a2`. -/
def c3TracksAPI : String → Option TracksBody :=
  fun _ => some (.obj [⟨[("id", "t1")], [some "a1", some "a2"]⟩])

/-- Concrete audio-features response aligned with `c3TracksAPI`. -/
def c3AudioAPI : String → Option AudioBody :=
  fun _ => some (.obj [[("tempo", "120")]])

/-- The 401 handler's token-manager invocation as the globals wire it:
`ACCESS_HEADER = request_access_token()` against the durable store, at a
fixed clock with an always-successful exchange (an exchange failure would
propagate and crash the run, a case the counterexample does not need). -/
def refreshViaTokenManager (now : Int) (exch : Except Unit (String × Int)) :
    Option Credential → String × Option Credential :=
  fun store =>
    match request_access_token store now exch with
    | .ok r => (r.header, r.store)
    | .error _ => ("", store)

/-- Track-metadata oracle whose response lists track `t1` (with no artists)
twice — what the batch endpoint returns when `t1` is requested twice, as
happens when `t1` was accumulated from two playlists. -/
def dupTracksAPI : String → Option TracksBody :=
  fun _ => some (.obj [⟨[("id", "t1")], []⟩, ⟨[("id", "t1")], []⟩])

/-- Audio-features oracle aligned with `dupTracksAPI`. -/
def dupAudioAPI : String → Option AudioBody :=
  fun _ => some (.obj [[], []])

/-- Track-metadata oracle returning track `t1` (with no artists) once. -/
def oneTrackAPI : String → Option TracksBody :=
  fun _ => some (.obj [⟨[("id", "t1")], []⟩])

/-- Audio-features oracle aligned with `oneTrackAPI`. -/
def oneAudioAPI : String → Option AudioBody :=
  fun _ => some (.obj [[]])

/-- The empty initial file state: no ledgers, no record files. -/
def emptyFS : FileState := ⟨[], [], [], []⟩

/-- A file state whose track-features file already holds a data row while
the track-id ledger is empty (e.g. after a crash between the record write
and the ledger write, or a hand-edited ledger). -/
def c8FS : FileState := ⟨[], [], [CsvRow.record ⟨[], []⟩], []⟩

/-- A state whose ledgers already hold the discovered track `t1` and one
artist: a completed prior run with a nonempty artist-id ledger. -/
def c9FS : FileState := ⟨["t1"], ["a1"], [], []⟩

/-- The file state after a first run from `emptyFS` that discovered `t1`,
ingested it (no artists), and wrote both headers. -/
def runOneFS : FileState :=
  mainRun DATASET_SIZE_THRESHOLD BATCH_SIZE (some ["t1"])
    (collect_track_data oneTrackAPI oneAudioAPI)
    (collect_artist_data (fun _ => none)) emptyFS

/-! ## Helper lemmas -/

theorem chunks_nil {α : Type} (n : Nat) : chunks (α := α) n [] = [] := rfl

theorem chunksFuel_flatten {α : Type} (n : Nat) (hn : 0 < n) :
    ∀ (fuel : Nat) (l : List α), l.length ≤ fuel →
      (chunksFuel n fuel l).flatten = l := by
  intro fuel
  induction fuel with
  | zero =>
    intro l hl
    have : l = [] := List.eq_nil_of_length_eq_zero (Nat.le_zero.mp hl)
    subst this; rfl
  | succ fuel ih =>
    intro l hl
    match l with
    | [] => rfl
    | a :: l =>
      have hlen : ((a :: l).drop n).length ≤ fuel := by
        simp only [List.length_drop, List.length_cons]
        simp only [List.length_cons] at hl
        omega
      rw [chunksFuel, List.flatten_cons, ih _ hlen, List.take_append_drop]

theorem chunks_flatten {α : Type} (n : Nat) (hn : 0 < n) (l : List α) :
    (chunks n l).flatten = l :=
  chunksFuel_flatten n hn l.length l le_rfl

theorem chunksFuel_zero_flatten {α : Type} :
    ∀ (fuel : Nat) (l : List α), (chunksFuel 0 fuel l).flatten = [] := by
  intro fuel
  induction fuel with
  | zero => intro l; cases l <;> rfl
  | succ fuel ih =>
    intro l
    cases l with
    | nil => rfl
    | cons a l => simp [chunksFuel, ih]

theorem chunks_flatten_sublist {α : Type} (n : Nat) (l : List α) :
    (chunks n l).flatten.Sublist l := by
  cases n with
  | zero =>
    rw [chunks, chunksFuel_zero_flatten]
    exact List.nil_sublist l
  | succ m =>
    rw [chunks_flatten (m + 1) (Nat.succ_pos m) l]

theorem call_spotify_endpoint_ceiling {β σ : Type} (oracle : Nat → HttpResponse β)
    (refresh : σ → String × σ) (hdr : String) (auth : σ) (reqIdx calls : Nat)
    (h : 3 < calls) :
    call_spotify_endpoint oracle refresh hdr auth reqIdx calls =
      ⟨none, hdr, auth, [], 0⟩ := by
  rw [call_spotify_endpoint]
  simp [h]

theorem call_spotify_endpoint_requests_le {β σ : Type} :
    ∀ (k : Nat) (oracle : Nat → HttpResponse β) (refresh : σ → String × σ)
      (hdr : String) (auth : σ) (reqIdx calls : Nat), 4 - calls ≤ k →
      (call_spotify_endpoint oracle refresh hdr auth reqIdx calls).requests.length
        ≤ 4 - calls := by
  intro k
  induction k with
  | zero =>
    intro oracle refresh hdr auth reqIdx calls hk
    have h : 3 < calls := by omega
    rw [call_spotify_endpoint_ceiling oracle refresh hdr auth reqIdx calls h]
    simp
  | succ k ih =>
    intro oracle refresh hdr auth reqIdx calls hk
    rw [call_spotify_endpoint]
    by_cases h : 3 < calls
    · simp [h]
    · have hc : calls ≤ 3 := by omega
      have hrec : 4 - (calls + 1) ≤ k := by omega
      simp only [h, dite_false]
      split
      · simp; omega
      · split
        · have := ih oracle refresh hdr auth (reqIdx + 1) (calls + 1) hrec
          simp only [List.length_cons]
          omega
        · split
          · have := ih oracle refresh (refresh auth).1 (refresh auth).2
              (reqIdx + 1) (calls + 1) hrec
            simp only [List.length_cons]
            omega
          · simp; omega

theorem call_spotify_endpoint_first_request {β σ : Type} (oracle : Nat → HttpResponse β)
    (refresh : σ → String × σ) (hdr : String) (auth : σ) (reqIdx calls : Nat)
    (h : calls ≤ 3) :
    (call_spotify_endpoint oracle refresh hdr auth reqIdx calls).requests.head? =
      some (reqIdx, hdr) := by
  rw [call_spotify_endpoint]
  have h3 : ¬ 3 < calls := by omega
  simp only [h3, dite_false]
  split <;> try rfl
  split <;> try rfl
  split <;> rfl

theorem countHeaders_append_records {α : Type} (rows : List (CsvRow α))
    (recs : List α) :
    countHeaders (rows ++ recs.map CsvRow.record) = countHeaders rows := by
  simp [countHeaders, List.countP_append, List.countP_map, Function.comp,
    CsvRow.isHeader]

theorem countHeaders_append_header {α : Type} (rows : List (CsvRow α)) :
    countHeaders (rows ++ [CsvRow.header]) = countHeaders rows + 1 := by
  simp [countHeaders, List.countP_append, List.countP_cons, CsvRow.isHeader]

theorem processTrackBatch_trackFeat_headers
    (ct : List String → Option (List TrackRecord × List (Option String)))
    (s : IngestState) (b : List String) :
    countHeaders (processTrackBatch ct s b).fs.trackFeatRows =
      countHeaders s.fs.trackFeatRows := by
  unfold processTrackBatch
  rcases ct b with _ | ⟨recs, aids⟩
  · rfl
  · dsimp only
    split
    · rfl
    · split <;> simp [countHeaders_append_records]

theorem processTrackBatch_artistFeatRows
    (ct : List String → Option (List TrackRecord × List (Option String)))
    (s : IngestState) (b : List String) :
    (processTrackBatch ct s b).fs.artistFeatRows = s.fs.artistFeatRows := by
  unfold processTrackBatch
  rcases ct b with _ | ⟨recs, aids⟩
  · rfl
  · dsimp only
    split
    · rfl
    · split <;> rfl

theorem processTrackBatch_trackIdRows
    (ct : List String → Option (List TrackRecord × List (Option String)))
    (s : IngestState) (b : List String) :
    (processTrackBatch ct s b).fs.trackIdRows = s.fs.trackIdRows ∨
    ∃ recs aids, ct b = some (recs, aids) ∧
      (processTrackBatch ct s b).fs.trackIdRows =
        s.fs.trackIdRows ++ recs.map TrackRecord.ledgerRow := by
  unfold processTrackBatch
  rcases h : ct b with _ | ⟨recs, aids⟩
  · left; rfl
  · dsimp only
    split
    · left; rfl
    · right
      refine ⟨recs, aids, rfl, ?_⟩
      split <;> rfl

theorem foldl_processTrackBatch_trackFeat_headers
    (ct : List String → Option (List TrackRecord × List (Option String))) :
    ∀ (batches : List (List String)) (s : IngestState),
      countHeaders ((batches.foldl (processTrackBatch ct) s).fs.trackFeatRows) =
        countHeaders s.fs.trackFeatRows := by
  intro batches
  induction batches with
  | nil => intro s; rfl
  | cons b bs ih =>
    intro s
    rw [List.foldl_cons, ih, processTrackBatch_trackFeat_headers]

theorem foldl_processTrackBatch_artistFeatRows
    (ct : List String → Option (List TrackRecord × List (Option String))) :
    ∀ (batches : List (List String)) (s : IngestState),
      (batches.foldl (processTrackBatch ct) s).fs.artistFeatRows =
        s.fs.artistFeatRows := by
  intro batches
  induction batches with
  | nil => intro s; rfl
  | cons b bs ih =>
    intro s
    rw [List.foldl_cons, ih, processTrackBatch_artistFeatRows]

theorem foldl_processTrackBatch_trackIdRows_nodup
    (ct : List String → Option (List TrackRecord × List (Option String)))
    (halign : ∀ b recs aids, ct b = some (recs, aids) →
      recs.map TrackRecord.ledgerRow = b) :
    ∀ (batches : List (List String)) (s : IngestState),
      (s.fs.trackIdRows ++ batches.flatten).Nodup →
      ((batches.foldl (processTrackBatch ct) s).fs.trackIdRows).Nodup := by
  intro batches
  induction batches with
  | nil =>
    intro s h
    simpa using h
  | cons b bs ih =>
    intro s h
    rw [List.flatten_cons] at h
    rw [List.foldl_cons]
    apply ih
    rcases processTrackBatch_trackIdRows ct s b with heq | ⟨recs, aids, hct, heq⟩
    · rw [heq]
      refine List.Nodup.sublist ?_ h
      exact (List.sublist_append_right b bs.flatten).append_left s.fs.trackIdRows
    · rw [heq, halign b recs aids hct]
      rw [← List.append_assoc] at h
      exact h

theorem processArtistBatch_data
    (ca : List (Option String) → Option (List ArtistRecord))
    (fs : FileState) (b : List (Option String)) :
    (processArtistBatch ca fs b).trackIdRows = fs.trackIdRows ∧
    (processArtistBatch ca fs b).artistIdRows = fs.artistIdRows ∧
    (processArtistBatch ca fs b).trackFeatRows = fs.trackFeatRows ∧
    countHeaders (processArtistBatch ca fs b).artistFeatRows =
      countHeaders fs.artistFeatRows := by
  unfold processArtistBatch
  rcases ca b with _ | recs
  · exact ⟨rfl, rfl, rfl, rfl⟩
  · dsimp only
    split
    · exact ⟨rfl, rfl, rfl, rfl⟩
    · exact ⟨rfl, rfl, rfl, countHeaders_append_records fs.artistFeatRows recs⟩

theorem foldl_processArtistBatch_data
    (ca : List (Option String) → Option (List ArtistRecord)) :
    ∀ (batches : List (List (Option String))) (fs : FileState),
      (batches.foldl (processArtistBatch ca) fs).trackIdRows = fs.trackIdRows ∧
      (batches.foldl (processArtistBatch ca) fs).artistIdRows = fs.artistIdRows ∧
      (batches.foldl (processArtistBatch ca) fs).trackFeatRows = fs.trackFeatRows ∧
      countHeaders (batches.foldl (processArtistBatch ca) fs).artistFeatRows =
        countHeaders fs.artistFeatRows := by
  intro batches
  induction batches with
  | nil => intro fs; exact ⟨rfl, rfl, rfl, rfl⟩
  | cons b bs ih =>
    intro fs
    rw [List.foldl_cons]
    rcases ih (processArtistBatch ca fs b) with ⟨h1, h2, h3, h4⟩
    rcases processArtistBatch_data ca fs b with ⟨g1, g2, g3, g4⟩
    exact ⟨h1.trans g1, h2.trans g2, h3.trans g3, h4.trans g4⟩

theorem parse_fold_records :
    ∀ (l : List (TrackObj × Obj)) (acc1 : List TrackRecord)
      (acc2 : List (Option String)),
    (l.foldl (fun acc p => (acc.1 ++ [mkTrackRecord p.1 p.2],
        pySetUnion acc.2 (pySet p.1.artists))) (acc1, acc2)).1 =
      acc1 ++ l.map (fun p => mkTrackRecord p.1 p.2) := by
  intro l
  induction l with
  | nil => intro acc1 acc2; simp
  | cons p l ih =>
    intro acc1 acc2
    simp only [List.foldl_cons, List.map_cons, ih, List.append_assoc,
      List.singleton_append]

theorem parse_track_responses_records (ts : List TrackObj) (afs : List Obj) :
    (parse_track_responses ts afs).1 =
      (ts.zip afs).map (fun p => mkTrackRecord p.1 p.2) := by
  unfold parse_track_responses
  rw [parse_fold_records]
  simp

theorem call_spotify_endpoint_401_step {β σ : Type} (oracle : Nat → HttpResponse β)
    (refresh : σ → String × σ) (hdr : String) (auth : σ) (reqIdx calls : Nat)
    (hc : calls ≤ 3) (h401 : (oracle reqIdx).status = 401) :
    call_spotify_endpoint oracle refresh hdr auth reqIdx calls =
      { result := (call_spotify_endpoint oracle refresh (refresh auth).1
          (refresh auth).2 (reqIdx + 1) (calls + 1)).result
        hdr := (call_spotify_endpoint oracle refresh (refresh auth).1
          (refresh auth).2 (reqIdx + 1) (calls + 1)).hdr
        auth := (call_spotify_endpoint oracle refresh (refresh auth).1
          (refresh auth).2 (reqIdx + 1) (calls + 1)).auth
        requests := (reqIdx, hdr) :: (call_spotify_endpoint oracle refresh
          (refresh auth).1 (refresh auth).2 (reqIdx + 1) (calls + 1)).requests
        refreshes := (call_spotify_endpoint oracle refresh (refresh auth).1
          (refresh auth).2 (reqIdx + 1) (calls + 1)).refreshes + 1 } := by
  have h3 : ¬ 3 < calls := by omega
  rw [call_spotify_endpoint]
  simp [h3, h401]

/-! ## Claim theorems -/

/-- C2: for every logical request and every mix of HTTP responses, the
endpoint caller issues at most `4 - calls` requests (so a request entered
with `calls = 0` issues at most one initial request plus three retries), and
as soon as the attempt counter exceeds 3 it returns no data without issuing
any request or refresh; the recursion is total by construction. -/
theorem call_spotify_endpoint_retry_ceiling {β σ : Type}
    (oracle : Nat → HttpResponse β) (refresh : σ → String × σ)
    (hdr : String) (auth : σ) (reqIdx calls : Nat) :
    (call_spotify_endpoint oracle refresh hdr auth reqIdx calls).requests.length
        ≤ 4 - calls ∧
    (call_spotify_endpoint oracle refresh hdr auth reqIdx 0).requests.length ≤ 4 ∧
    (3 < calls →
      call_spotify_endpoint oracle refresh hdr auth reqIdx calls =
        ⟨none, hdr, auth, [], 0⟩) := by
  refine ⟨call_spotify_endpoint_requests_le (4 - calls) oracle refresh hdr auth
      reqIdx calls le_rfl, ?_, fun h =>
      call_spotify_endpoint_ceiling oracle refresh hdr auth reqIdx calls h⟩
  have := call_spotify_endpoint_requests_le (4 : Nat) oracle refresh hdr auth
    reqIdx 0 (by omega)
  omega

/-- Witness for C2 at a concrete oracle: a service that always answers 429
drives the caller through exactly four requests (one initial call and three
retries), and a call entered past the ceiling issues none. -/
theorem call_spotify_endpoint_retry_ceiling_witness :
    ((call_spotify_endpoint (β := Unit) (σ := Unit)
        (fun _ => ⟨429, some 1, ()⟩) (fun _ => ("h", ())) "h" () 0 0).requests.length
      ≤ 4 - 0) ∧
    ((call_spotify_endpoint (β := Unit) (σ := Unit)
        (fun _ => ⟨429, some 1, ()⟩) (fun _ => ("h", ())) "h" () 0 0).requests.length
      ≤ 4) ∧
    (3 < 5 →
      call_spotify_endpoint (β := Unit) (σ := Unit)
        (fun _ => ⟨429, some 1, ()⟩) (fun _ => ("h", ())) "h" () 0 5 =
        ⟨none, "h", (), [], 0⟩) := by
  have h := call_spotify_endpoint_retry_ceiling (β := Unit) (σ := Unit)
    (fun _ => ⟨429, some 1, ()⟩) (fun _ => ("h", ())) "h" () 0 0
  have h5 := call_spotify_endpoint_retry_ceiling (β := Unit) (σ := Unit)
    (fun _ => ⟨429, some 1, ()⟩) (fun _ => ("h", ())) "h" () 0 5
  exact ⟨h.1, h.2.1, h5.2.2⟩

/-- C4: the new-id filter preserves input order (the result is a sublist of
the input), its element set is the input set minus the known set, and it is
idempotent with respect to the same known set. -/
theorem new_id_filter_spec (ids known : List String) :
    (newIdFilter ids known).Sublist ids ∧
    (newIdFilter ids known).toFinset = ids.toFinset \ known.toFinset ∧
    newIdFilter (newIdFilter ids known) known = newIdFilter ids known := by
  refine ⟨List.filter_sublist ids, ?_, ?_⟩
  · ext x
    simp [newIdFilter, List.mem_filter]
  · simp [newIdFilter, List.filter_filter]

/-- C5: whenever the count of new track ids plus the known-track count
reaches the dataset-size threshold, `main` aborts before any write: the
file state is returned unchanged. -/
theorem main_threshold_abort (threshold batchSize : Nat) (ids : List String)
    (collectTrack : List String → Option (List TrackRecord × List (Option String)))
    (collectArtist : List (Option String) → Option (List ArtistRecord))
    (fs : FileState)
    (h : threshold ≤ (newIdFilter ids (pySet fs.trackIdRows)).length +
        (pySet fs.trackIdRows).length) :
    mainRun threshold batchSize (some ids) collectTrack collectArtist fs = fs := by
  unfold mainRun
  by_cases hids : ids.isEmpty
  · simp [hids]
  · simp [hids, h]

/-- Witness for C5 on the spec's own example: 8 known tracks, 5 new tracks,
threshold 10 — the run leaves every file untouched. -/
theorem main_threshold_abort_witness :
    mainRun 10 50 (some ["n1", "n2", "n3", "n4", "n5"])
      (fun _ => none) (fun _ => none)
      ⟨["k1", "k2", "k3", "k4", "k5", "k6", "k7", "k8"], [], [], []⟩ =
    ⟨["k1", "k2", "k3", "k4", "k5", "k6", "k7", "k8"], [], [], []⟩ :=
  main_threshold_abort 10 50 ["n1", "n2", "n3", "n4", "n5"]
    (fun _ => none) (fun _ => none)
    ⟨["k1", "k2", "k3", "k4", "k5", "k6", "k7", "k8"], [], [], []⟩ (by decide)

/-- C7: the token manager returns a present, nonempty, fresh persisted
credential unchanged with no network call; otherwise it performs the
exchange, computes expiry as `now` plus the returned lifetime, persists
exactly that one record overwriting any prior value, and returns the new
credential — and a failed exchange propagates as the error. -/
theorem request_access_token_spec (store : Option Credential) (now : Int)
    (exchange : Except Unit (String × Int)) :
    (∀ c, store = some c → c.accessToken ≠ "" → now < c.expires - 300 →
      request_access_token store now exchange =
        .ok ⟨package_access_token c.accessToken, store, false⟩) ∧
    ((∀ c, store = some c → c.accessToken = "" ∨ c.expires - 300 ≤ now) →
      (∀ tok life, exchange = .ok (tok, life) →
        request_access_token store now exchange =
          .ok ⟨package_access_token tok, some ⟨tok, now + life⟩, true⟩) ∧
      (∀ e, exchange = .error e →
        request_access_token store now exchange = .error e)) := by
  constructor
  · rintro c rfl hne hfresh
    simp [request_access_token, load_token, hne, hfresh]
  · intro hstale
    constructor
    · rintro tok life rfl
      match store with
      | none => simp [request_access_token, load_token, save_token]
      | some c =>
        rcases hstale c rfl with h | h <;>
          simp [request_access_token, load_token, save_token, h]
    · rintro e rfl
      match store with
      | none => simp [request_access_token, load_token]
      | some c =>
        rcases hstale c rfl with h | h <;>
          simp [request_access_token, load_token, h]

/-- Witness for C7: a fresh stored credential is returned unchanged without
a network call, and from an empty store the exchange outcome is persisted. -/
theorem request_access_token_spec_witness :
    (request_access_token (some ⟨"tok", 1000⟩) 0 (.ok ("newTok", 3600)) =
      .ok ⟨package_access_token "tok", some ⟨"tok", 1000⟩, false⟩) ∧
    (request_access_token none 0 (.ok ("newTok", 3600)) =
      .ok ⟨package_access_token "newTok", some ⟨"newTok", 3600⟩, true⟩) ∧
    (request_access_token none 0 (.error ()) = .error ()) := by
  refine ⟨(request_access_token_spec (some ⟨"tok", 1000⟩) 0
      (.ok ("newTok", 3600))).1 ⟨"tok", 1000⟩ rfl (by decide) (by decide), ?_, ?_⟩
  · exact ((request_access_token_spec none 0 (.ok ("newTok", 3600))).2
      (fun c hc => Option.noConfusion hc)).1 "newTok" 3600 rfl
  · exact ((request_access_token_spec none 0 (.error ())).2
      (fun c hc => Option.noConfusion hc)).2 () rfl

/-- C3: for a batch within the batch-size limit, `collect_track_data`
either returns no data at all, or returns one merged record per
positionally zipped pair of the two responses — the record built by
`mkTrackRecord` from the projected track fields, the projected
audio-feature fields and the artist-id list — never a partial list. -/
theorem collect_track_data_spec (tracksAPI : String → Option TracksBody)
    (audioAPI : String → Option AudioBody) (batch : List String)
    (_hb : batch.length ≤ BATCH_SIZE) :
    collect_track_data tracksAPI audioAPI batch = none ∨
    ∃ ts afs,
      tracksAPI (String.intercalate "," batch) = some (.obj ts) ∧
      audioAPI (String.intercalate "," batch) = some (.obj afs) ∧
      ∃ recs aids,
        collect_track_data tracksAPI audioAPI batch = some (recs, aids) ∧
        recs = (ts.zip afs).map (fun p => mkTrackRecord p.1 p.2) ∧
        recs.length = (ts.zip afs).length := by
  rcases h1 : tracksAPI (String.intercalate "," batch) with _ | b1
  · left; simp [collect_track_data, h1]
  · rcases b1 with _ | ts
    · left; simp [collect_track_data, h1]
    · rcases h2 : audioAPI (String.intercalate "," batch) with _ | b2
      · left; simp [collect_track_data, h1, h2]
      · rcases b2 with _ | afs
        · left; simp [collect_track_data, h1, h2]
        · right
          refine ⟨ts, afs, rfl, rfl, (parse_track_responses ts afs).1,
            (parse_track_responses ts afs).2, by simp [collect_track_data, h1, h2],
            parse_track_responses_records ts afs, ?_⟩
          rw [parse_track_responses_records ts afs, List.length_map]

/-- Witness for C3 at a one-element batch against concrete responses. -/
theorem collect_track_data_spec_witness :
    collect_track_data c3TracksAPI c3AudioAPI ["t1"] = none ∨
    ∃ ts afs,
      c3TracksAPI (String.intercalate "," ["t1"]) = some (.obj ts) ∧
      c3AudioAPI (String.intercalate "," ["t1"]) = some (.obj afs) ∧
      ∃ recs aids,
        collect_track_data c3TracksAPI c3AudioAPI ["t1"] = some (recs, aids) ∧
        recs = (ts.zip afs).map (fun p => mkTrackRecord p.1 p.2) ∧
        recs.length = (ts.zip afs).length :=
  collect_track_data_spec c3TracksAPI c3AudioAPI ["t1"] (by decide)

/-- C10: a 200 response whose parsed body is falsy is handled exactly like
a failed call by every caller: `collect_track_data` drops the batch with no
data, `collect_artist_data` drops the batch with no data, and the playlist
pagination loop abandons the listing keeping what was accumulated — the
very outcomes of a `None` response. -/
theorem falsy_body_treated_as_no_data
    (tracksAPI : String → Option TracksBody) (audioAPI : String → Option AudioBody)
    (artistAPI : String → Option ArtistsBody) (pageAPI : String → Option PageBody)
    (batch : List String) (abatch : List (Option String))
    (fuel : Nat) (url : String) (acc : List String) :
    (tracksAPI (String.intercalate "," batch) = some .falsy ∨
     audioAPI (String.intercalate "," batch) = some .falsy →
      collect_track_data tracksAPI audioAPI batch = none) ∧
    (artistAPI (String.intercalate "," (abatch.map (fun a => a.getD ""))) =
        some .falsy →
      collect_artist_data artistAPI abatch = none) ∧
    (pageAPI url = some .falsy →
      get_track_ids_loop pageAPI (fuel + 1) (some url) acc = acc) := by
  refine ⟨?_, ?_, ?_⟩
  · rintro (h | h)
    · simp [collect_track_data, h]
    · rcases h1 : tracksAPI (String.intercalate "," batch) with _ | b1
      · simp [collect_track_data, h1]
      · rcases b1 with _ | ts
        · simp [collect_track_data, h1]
        · simp [collect_track_data, h1, h]
  · intro h
    simp [collect_artist_data, h]
  · intro h
    simp [get_track_ids_loop, h]

/-- Witness for C10 at concrete falsy responses. -/
theorem falsy_body_treated_as_no_data_witness :
    collect_track_data (fun _ => some .falsy) c3AudioAPI ["t1"] = none ∧
    collect_artist_data (fun _ => some .falsy) [some "a1"] = none ∧
    get_track_ids_loop (fun _ => some .falsy) 3 (some "page0") ["t0"] = ["t0"] := by
  have h := falsy_body_treated_as_no_data (fun _ => some .falsy) c3AudioAPI
    (fun _ => some .falsy) (fun _ => some .falsy) ["t1"] [some "a1"] 2 "page0" ["t0"]
  exact ⟨h.1 (Or.inl rfl), h.2.1 rfl, h.2.2 rfl⟩

/-- C6 (amended): on a 401 received with the attempt counter at most 3, the
caller invokes the token manager exactly once (one refresh on top of those
of the recursion) and recurses; when the counter has not reached the
ceiling, the re-issued request carries the header the token manager
returned.  The token manager, however, replaces the persisted credential
only when it is absent, empty or stale: a present, nonempty, fresh
credential is returned unchanged, so the refresh is not forced. -/
theorem call_spotify_endpoint_401_refresh {β σ : Type}
    (oracle : Nat → HttpResponse β) (refresh : σ → String × σ)
    (hdr : String) (auth : σ) (reqIdx calls : Nat)
    (hc : calls ≤ 3) (h401 : (oracle reqIdx).status = 401) :
    (∃ rest, rest = call_spotify_endpoint oracle refresh (refresh auth).1
        (refresh auth).2 (reqIdx + 1) (calls + 1) ∧
      call_spotify_endpoint oracle refresh hdr auth reqIdx calls =
        ⟨rest.result, rest.hdr, rest.auth, (reqIdx, hdr) :: rest.requests,
          rest.refreshes + 1⟩ ∧
      (calls < 3 → rest.requests.head? = some (reqIdx + 1, (refresh auth).1))) ∧
    (∀ (store : Option Credential) (now : Int)
        (exch : Except Unit (String × Int)) (c : Credential),
      store = some c → c.accessToken ≠ "" → now < c.expires - 300 →
      request_access_token store now exch =
        .ok ⟨package_access_token c.accessToken, store, false⟩) := by
  constructor
  · refine ⟨_, rfl,
      call_spotify_endpoint_401_step oracle refresh hdr auth reqIdx calls hc h401,
      fun hlt => ?_⟩
    exact call_spotify_endpoint_first_request oracle refresh _ _
      (reqIdx + 1) (calls + 1) (by omega)
  · intro store now exch c hst hne hfresh
    exact (request_access_token_spec store now exch).1 c hst hne hfresh

/-- Counterexample to C6 as stated: a service answering 401 forever, faced
with a persisted credential that is still fresh.  Each of the four
401-triggered token-manager invocations returns the same credential
unchanged — the durable store still holds the original credential at the
end and every re-issued request carries the original header, so a 401 does
not trigger a refresh that replaces the credential. -/
theorem call_spotify_endpoint_401_counterexample :
    call_spotify_endpoint (β := Unit) (fun _ => ⟨401, none, ()⟩)
      (refreshViaTokenManager 0 (.ok ("newTok", 3600)))
      (package_access_token "tok") (some ⟨"tok", 1000⟩) 0 0 =
      ⟨none, package_access_token "tok", some ⟨"tok", 1000⟩,
        [(0, package_access_token "tok"), (1, package_access_token "tok"),
         (2, package_access_token "tok"), (3, package_access_token "tok")], 4⟩ := by
  have hr : refreshViaTokenManager 0 (.ok ("newTok", 3600)) (some ⟨"tok", 1000⟩) =
      (package_access_token "tok", some ⟨"tok", 1000⟩) := rfl
  rw [call_spotify_endpoint_401_step _ _ _ _ 0 0 (by omega) rfl, hr]
  rw [call_spotify_endpoint_401_step _ _ _ _ 1 1 (by omega) rfl, hr]
  rw [call_spotify_endpoint_401_step _ _ _ _ 2 2 (by omega) rfl, hr]
  rw [call_spotify_endpoint_401_step _ _ _ _ 3 3 (by omega) rfl, hr]
  rw [call_spotify_endpoint_ceiling _ _ _ _ 4 4 (by omega)]

/-- C1 (amended): starting from a duplicate-free track-id ledger, the
ledger is still duplicate-free after the run — provided the discovered
track-id list itself contains no duplicate ids (within-run duplicates are
not filtered, see the counterexample) and each successful batch response is
id-aligned with its request, the external-API guarantee the code relies
on.  Since the run only appends, every intermediate ledger is a prefix of
the final one, so the invariant holds after every successful append. -/
theorem track_ledger_nodup (threshold batchSize : Nat) (ids : List String)
    (ct : List String → Option (List TrackRecord × List (Option String)))
    (ca : List (Option String) → Option (List ArtistRecord)) (fs : FileState)
    (h0 : fs.trackIdRows.Nodup) (hids : ids.Nodup)
    (halign : ∀ b recs aids, ct b = some (recs, aids) →
      recs.map TrackRecord.ledgerRow = b) :
    (mainRun threshold batchSize (some ids) ct ca fs).trackIdRows.Nodup := by
  have hnew : (newIdFilter ids (pySet fs.trackIdRows)).Nodup := hids.filter _
  have hdisj : List.Disjoint fs.trackIdRows
      (newIdFilter ids (pySet fs.trackIdRows)) := by
    intro a ha hmem
    rw [newIdFilter, List.mem_filter, decide_eq_true_eq] at hmem
    exact hmem.2 (by rw [pySet]; exact List.mem_dedup.mpr ha)
  have happ : (fs.trackIdRows ++ newIdFilter ids (pySet fs.trackIdRows)).Nodup :=
    h0.append hnew hdisj
  simp only [mainRun]
  by_cases hempty : ids.isEmpty = true
  · rw [if_pos hempty]; exact h0
  · rw [if_neg hempty]
    by_cases hth : threshold ≤ (newIdFilter ids (pySet fs.trackIdRows)).length +
        (pySet fs.trackIdRows).length
    · rw [if_pos hth]; exact h0
    · rw [if_neg hth, (foldl_processArtistBatch_data ca _ _).1]
      split
      all_goals
        apply foldl_processTrackBatch_trackIdRows_nodup ct halign
        split
      all_goals
        exact List.Nodup.sublist
          ((chunks_flatten_sublist batchSize _).append_left fs.trackIdRows) happ

/-- Counterexample to C1 as stated: the same track id accumulated twice
from playlist discovery (it occurs in two playlists) survives the new-id
filter twice, is fetched in one batch whose response echoes it twice, and
is therefore written to the track-id ledger twice — the ledger starts
duplicate-free and ends with a duplicate, and two track records are
created for the one track. -/
theorem track_ledger_dup_counterexample :
    emptyFS.trackIdRows.Nodup ∧
    (mainRun DATASET_SIZE_THRESHOLD BATCH_SIZE (some ["t1", "t1"])
      (collect_track_data dupTracksAPI dupAudioAPI)
      (collect_artist_data (fun _ => none)) emptyFS).trackIdRows = ["t1", "t1"] ∧
    ¬ (mainRun DATASET_SIZE_THRESHOLD BATCH_SIZE (some ["t1", "t1"])
      (collect_track_data dupTracksAPI dupAudioAPI)
      (collect_artist_data (fun _ => none)) emptyFS).trackIdRows.Nodup :=
  ⟨by decide, by decide, by decide⟩

/-- Witness for the amended C1 at a duplicate-free discovery list. -/
theorem track_ledger_nodup_witness :
    (mainRun DATASET_SIZE_THRESHOLD BATCH_SIZE (some ["t1", "t2"])
      (fun _ => none) (fun _ => none) emptyFS).trackIdRows.Nodup :=
  track_ledger_nodup DATASET_SIZE_THRESHOLD BATCH_SIZE ["t1", "t2"]
    (fun _ => none) (fun _ => none) emptyFS (by decide) (by decide)
    (fun b recs aids h => Option.noConfusion h)

/-- C8 (amended): on every run that reaches the ingestion phases
(discovery nonempty, below the threshold), a header row is appended to an
output record file if and only if the corresponding ID LEDGER was empty at
run start (`n_tracks == 0` / `n_artists == 0`) — not if and only if the
destination record file itself was empty, which is what the run never
inspects (see the counterexample). -/
theorem header_iff_ledger_empty (threshold batchSize : Nat) (ids : List String)
    (ct : List String → Option (List TrackRecord × List (Option String)))
    (ca : List (Option String) → Option (List ArtistRecord)) (fs : FileState)
    (hne : ids.isEmpty = false)
    (hth : (newIdFilter ids (pySet fs.trackIdRows)).length +
      (pySet fs.trackIdRows).length < threshold) :
    countHeaders (mainRun threshold batchSize (some ids) ct ca fs).trackFeatRows =
      countHeaders fs.trackFeatRows + (if fs.trackIdRows = [] then 1 else 0) ∧
    countHeaders (mainRun threshold batchSize (some ids) ct ca fs).artistFeatRows =
      countHeaders fs.artistFeatRows + (if fs.artistIdRows = [] then 1 else 0) := by
  have htiff : ((pySet fs.trackIdRows).length = 0) ↔ fs.trackIdRows = [] := by
    rw [pySet, List.length_eq_zero, List.dedup_eq_nil]
  have haiff : (((pySet fs.artistIdRows).map some).length = 0) ↔
      fs.artistIdRows = [] := by
    rw [List.length_map, pySet, List.length_eq_zero, List.dedup_eq_nil]
  simp only [mainRun]
  rw [if_neg (by simp [hne]), if_neg (Nat.not_le.mpr hth)]
  constructor
  · rw [(foldl_processArtistBatch_data ca _ _).2.2.1]
    split
    all_goals
      rw [foldl_processTrackBatch_trackFeat_headers]
      split
    case isTrue h | isTrue h =>
      rw [countHeaders_append_header, if_pos (htiff.mp h)]
    case isFalse h | isFalse h =>
      rw [if_neg (fun hc => h (htiff.mpr hc)), Nat.add_zero]
  · rw [(foldl_processArtistBatch_data ca _ _).2.2.2]
    split
    case isTrue h =>
      rw [countHeaders_append_header, foldl_processTrackBatch_artistFeatRows,
        if_pos (haiff.mp h)]
      split <;> rfl
    case isFalse h =>
      rw [foldl_processTrackBatch_artistFeatRows,
        if_neg (fun hc => h (haiff.mpr hc)), Nat.add_zero]
      split <;> rfl

/-- Counterexample to C8 as stated: a run over a state whose track-features
file already holds a data row while the track-id ledger is empty.  The
header decision reads the ledger count, so a header row is appended to the
non-empty destination file — the claim says it is never written when the
destination already contains data. -/
theorem header_into_nonempty_file_counterexample :
    c8FS.trackFeatRows ≠ [] ∧
    (mainRun DATASET_SIZE_THRESHOLD BATCH_SIZE (some ["t1"])
        (fun _ => none) (fun _ => none) c8FS).trackFeatRows =
      [CsvRow.record ⟨[], []⟩, CsvRow.header] :=
  ⟨by decide, by decide⟩

/-- Witness for the amended C8 on a fully empty state: both ledgers are
empty, so exactly one header lands in each record file. -/
theorem header_iff_ledger_empty_witness :
    countHeaders (mainRun DATASET_SIZE_THRESHOLD BATCH_SIZE (some ["t1"])
        (fun _ => none) (fun _ => none) emptyFS).trackFeatRows =
      countHeaders emptyFS.trackFeatRows +
        (if emptyFS.trackIdRows = [] then 1 else 0) ∧
    countHeaders (mainRun DATASET_SIZE_THRESHOLD BATCH_SIZE (some ["t1"])
        (fun _ => none) (fun _ => none) emptyFS).artistFeatRows =
      countHeaders emptyFS.artistFeatRows +
        (if emptyFS.artistIdRows = [] then 1 else 0) :=
  header_iff_ledger_empty DATASET_SIZE_THRESHOLD BATCH_SIZE ["t1"]
    (fun _ => none) (fun _ => none) emptyFS (by decide) (by decide)

/-- C9 (amended): a run whose discovery returns only ids already present
in the track-id ledger appends no id to either ledger and no row to the
track-features file; the only possible append anywhere is one duplicate
header row in the artist-features file, occurring exactly when the
artist-id ledger is empty at run start — with a nonempty artist-id ledger
the whole state is returned unchanged, for every external API state. -/
theorem second_run_no_data (threshold batchSize : Nat) (ids : List String)
    (ct : List String → Option (List TrackRecord × List (Option String)))
    (ca : List (Option String) → Option (List ArtistRecord)) (fs : FileState)
    (hsub : ∀ t ∈ ids, t ∈ fs.trackIdRows) :
    (mainRun threshold batchSize (some ids) ct ca fs).trackIdRows =
      fs.trackIdRows ∧
    (mainRun threshold batchSize (some ids) ct ca fs).artistIdRows =
      fs.artistIdRows ∧
    (mainRun threshold batchSize (some ids) ct ca fs).trackFeatRows =
      fs.trackFeatRows ∧
    ((mainRun threshold batchSize (some ids) ct ca fs).artistFeatRows =
        fs.artistFeatRows ∨
      (mainRun threshold batchSize (some ids) ct ca fs).artistFeatRows =
        fs.artistFeatRows ++ [CsvRow.header]) ∧
    (fs.artistIdRows ≠ [] →
      mainRun threshold batchSize (some ids) ct ca fs = fs) := by
  have hfilter : newIdFilter ids (pySet fs.trackIdRows) = [] := by
    rw [newIdFilter, List.filter_eq_nil_iff]
    intro a ha
    simp [pySet, List.mem_dedup, hsub a ha]
  simp only [mainRun]
  by_cases hempty : ids.isEmpty = true
  · rw [if_pos hempty]
    exact ⟨rfl, rfl, rfl, Or.inl rfl, fun _ => rfl⟩
  · rw [if_neg hempty, hfilter]
    by_cases hth : threshold ≤
        ([] : List String).length + (pySet fs.trackIdRows).length
    · rw [if_pos hth]
      exact ⟨rfl, rfl, rfl, Or.inl rfl, fun _ => rfl⟩
    · rw [if_neg hth]
      have hnt : ¬ (pySet fs.trackIdRows).length = 0 := by
        obtain ⟨t, ht⟩ : ∃ t, t ∈ ids := by
          cases ids with
          | nil => simp at hempty
          | cons a l => exact ⟨a, List.mem_cons_self a l⟩
        have hmem : t ∈ pySet fs.trackIdRows := by
          rw [pySet, List.mem_dedup]; exact hsub t ht
        intro hlen
        rw [List.length_eq_zero] at hlen
        rw [hlen] at hmem
        exact List.not_mem_nil t hmem
      rw [if_neg hnt]
      simp only [chunks_nil, List.foldl_nil]
      by_cases hart : ((pySet fs.artistIdRows).map some).length = 0
      · rw [if_pos hart]
        refine ⟨rfl, rfl, rfl, Or.inr rfl, fun hne2 => absurd ?_ hne2⟩
        rw [List.length_map, pySet, List.length_eq_zero, List.dedup_eq_nil] at hart
        exact hart
      · rw [if_neg hart]
        exact ⟨rfl, rfl, rfl, Or.inl rfl, fun _ => rfl⟩

/-- Counterexample to C9 as stated: a first run from the empty state
ingests track `t1` (no artists), leaving a complete track ledger, an empty
artist ledger and one header in the artist-features file.  Re-running with
the identical API state appends a second header row to the artist-features
file — not zero rows. -/
theorem second_run_appends_header_counterexample :
    runOneFS.trackIdRows = ["t1"] ∧
    (mainRun DATASET_SIZE_THRESHOLD BATCH_SIZE (some ["t1"])
        (collect_track_data oneTrackAPI oneAudioAPI)
        (collect_artist_data (fun _ => none)) runOneFS).artistFeatRows =
      runOneFS.artistFeatRows ++ [CsvRow.header] :=
  ⟨by decide, by decide⟩

/-- Witness for the amended C9: with a nonempty artist-id ledger and a
complete track-id ledger, the second run changes nothing. -/
theorem second_run_no_data_witness :
    (mainRun DATASET_SIZE_THRESHOLD BATCH_SIZE (some ["t1"])
        (fun _ => none) (fun _ => none) c9FS).trackIdRows = c9FS.trackIdRows ∧
    (mainRun DATASET_SIZE_THRESHOLD BATCH_SIZE (some ["t1"])
        (fun _ => none) (fun _ => none) c9FS).artistIdRows = c9FS.artistIdRows ∧
    (mainRun DATASET_SIZE_THRESHOLD BATCH_SIZE (some ["t1"])
        (fun _ => none) (fun _ => none) c9FS).trackFeatRows = c9FS.trackFeatRows ∧
    ((mainRun DATASET_SIZE_THRESHOLD BATCH_SIZE (some ["t1"])
        (fun _ => none) (fun _ => none) c9FS).artistFeatRows =
          c9FS.artistFeatRows ∨
      (mainRun DATASET_SIZE_THRESHOLD BATCH_SIZE (some ["t1"])
        (fun _ => none) (fun _ => none) c9FS).artistFeatRows =
          c9FS.artistFeatRows ++ [CsvRow.header]) ∧
    (c9FS.artistIdRows ≠ [] →
      mainRun DATASET_SIZE_THRESHOLD BATCH_SIZE (some ["t1"])
        (fun _ => none) (fun _ => none) c9FS = c9FS) :=
  second_run_no_data DATASET_SIZE_THRESHOLD BATCH_SIZE ["t1"]
    (fun _ => none) (fun _ => none) c9FS (by decide)

/-- Witness for the amended C6: its token-manager clause applied at a
concrete fresh credential. -/
theorem call_spotify_endpoint_401_refresh_witness :
    request_access_token (some ⟨"tok", 1000⟩) 0 (.ok ("newTok", 3600)) =
      .ok ⟨package_access_token "tok", some ⟨"tok", 1000⟩, false⟩ :=
  (call_spotify_endpoint_401_refresh (β := Unit) (σ := Unit)
      (fun _ => ⟨401, none, ()⟩) (fun _ => ("h2", ())) "h1" () 0 0
      (by omega) rfl).2 (some ⟨"tok", 1000⟩) 0 (.ok ("newTok", 3600))
      ⟨"tok", 1000⟩ rfl (by decide) (by decide)

end SpotifyIngest
